import Mathlib

/-!
Shallow embedding of `openhands/llm/github_models.py`: a TTL-cached model
catalog provider (`GitHubModelsProvider`) and a cooldown tracker
(`GitHubModelsRateLimitHandler`).

Modelling conventions:
* A Python catalog entry (a JSON object / dict) is embedded as
  `ModelDescriptor` with `Option` fields: `d['id']` raises `KeyError` when the
  field is absent, while `d.get('rate_limit_tier')` yields `None`.
* `time.time()` values are embedded as `Int` (the claims only use
  integer-valued clocks).
* A network fetch of `GET {base_url}/catalog/models` has three observable
  outcomes: an `httpx.HTTPError` (network error, non-2xx after
  `raise_for_status`, timeout), a 2xx response whose body fails to parse in
  `response.json()`, or a parsed list of descriptors.
* Fallible code returns `Except String α`; the error string names the Python
  exception that escapes (`"KeyError"`, `"JSONDecodeError"`).
* Instance state (`_models_cache`, `_cache_timestamp`, `_failed_models`) is
  passed explicitly; each operation returns the updated state.  The boolean
  `fetched` field records whether the call performed a network fetch.
-/

namespace GitHubModels

/-- One entry of the remote catalog: a JSON object that may or may not carry
the `id` and `rate_limit_tier` string fields. -/
structure ModelDescriptor where
  id : Option String
  rate_limit_tier : Option String
deriving DecidableEq, Repr

/-- Observable outcome of one HTTP fetch of the catalog endpoint. -/
inductive FetchOutcome where
  /-- `httpx.HTTPError`: network error, non-2xx status, or timeout. -/
  | transportError
  /-- 2xx response whose body is not valid JSON: `response.json()` raises. -/
  | badBody
  /-- 2xx response parsed into a list of descriptors. -/
  | ok (models : List ModelDescriptor)
deriving DecidableEq, Repr

/-- The mutable state of `GitHubModelsProvider`: `_models_cache` and
`_cache_timestamp`. -/
structure ProviderState where
  models_cache : Option (List ModelDescriptor)
  cache_timestamp : Option Int
deriving DecidableEq, Repr

/-- `self._cache_ttl = 300`. -/
def cache_ttl : Int := 300

/-- The cache-freshness test of `get_available_models` (lines 51-56):
cache and timestamp present and `current_time - timestamp < ttl`. -/
def cacheFresh (st : ProviderState) (now : Int) : Bool :=
  match st.models_cache, st.cache_timestamp with
  | some _, some ts => now - ts < cache_ttl
  | _, _ => false

/-- Result of `get_available_models`: the returned list, the provider state
after the call, and whether a network fetch was performed. -/
structure FetchResultRec where
  result : List ModelDescriptor
  state : ProviderState
  fetched : Bool
deriving DecidableEq, Repr

/-- `GitHubModelsProvider.get_available_models`.  Returns the cached snapshot
when fresh and `force_refresh` is false; otherwise fetches: on transport error
(caught `httpx.HTTPError`) returns `self._models_cache or []` leaving the state
unchanged; on a malformed body `response.json()` raises past the boundary; on
success stores the new snapshot and timestamp. -/
def get_available_models (st : ProviderState) (now : Int) (fetch : FetchOutcome)
    (force_refresh : Bool) : Except String FetchResultRec :=
  if !force_refresh && cacheFresh st now then
    Except.ok ⟨st.models_cache.getD [], st, false⟩
  else
    match fetch with
    | .transportError => Except.ok ⟨st.models_cache.getD [], st, true⟩
    | .badBody => Except.error "JSONDecodeError"
    | .ok models => Except.ok ⟨models, ⟨some models, some now⟩, true⟩

/-- `GitHubModelsProvider.get_models_by_tier`: filter the (possibly refreshed)
catalog by `model.get('rate_limit_tier') == tier`. -/
def get_models_by_tier (st : ProviderState) (now : Int) (fetch : FetchOutcome)
    (tier : String) : Except String FetchResultRec := do
  let r ← get_available_models st now fetch false
  Except.ok ⟨r.result.filter (fun m => m.rate_limit_tier == some tier), r.state, r.fetched⟩

/-- The prefix-stripping step of `get_fallback_models` (lines 100-103):
`current_model[7:]` when it starts with `'github/'`. -/
def stripNamespace (current_model : String) : String :=
  if "github/".data.isPrefixOf current_model.data then
    (current_model.data.drop 7).asString
  else current_model

/-- The search loop of `get_fallback_models` (lines 109-112): the first
descriptor whose `model['id']` equals the stripped id; `model['id']` raises
`KeyError` on a descriptor lacking the field. -/
def findCurrentModel (models : List ModelDescriptor) (gid : String) :
    Except String (Option ModelDescriptor) :=
  match models with
  | [] => Except.ok none
  | m :: rest =>
    match m.id with
    | none => Except.error "KeyError"
    | some i => if i == gid then Except.ok (some m) else findCurrentModel rest gid

/-- The accumulation loop of `get_fallback_models` (lines 124-128): for each
tier model whose `model['id']` differs from the current id, append
`'github/' + model['id']`; `model['id']` raises `KeyError` when absent. -/
def buildFallbacks (tier_models : List ModelDescriptor) (gid : String) :
    Except String (List String) :=
  match tier_models with
  | [] => Except.ok []
  | m :: rest =>
    match m.id with
    | none => Except.error "KeyError"
    | some i =>
      if i == gid then buildFallbacks rest gid
      else do
        let r ← buildFallbacks rest gid
        Except.ok (("github/" ++ i) :: r)

/-- `GitHubModelsProvider.get_fallback_models`: strip the `github/` prefix,
refresh the catalog, locate the current model (returning `[]` when absent),
take `tier = info.get('rate_limit_tier', 'low')`, and list the other models of
that tier re-prefixed with `github/`. -/
def get_fallback_models (st : ProviderState) (now : Int) (fetch : FetchOutcome)
    (current_model : String) : Except String (List String × ProviderState) := do
  let github_model_id := stripNamespace current_model
  let r ← get_available_models st now fetch false
  let info ← findCurrentModel r.result github_model_id
  match info with
  | none => Except.ok ([], r.state)
  | some current_model_info =>
    let tier := current_model_info.rate_limit_tier.getD "low"
    let rt ← get_models_by_tier r.state now fetch tier
    let fallback ← buildFallbacks rt.result github_model_id
    Except.ok (fallback, rt.state)

/-- The comprehension of `get_litellm_model_list` (line 140):
`['github/' + model['id'] for model in models]`, raising `KeyError` on a
descriptor lacking `id`. -/
def buildLitellmList (models : List ModelDescriptor) : Except String (List String) :=
  match models with
  | [] => Except.ok []
  | m :: rest =>
    match m.id with
    | none => Except.error "KeyError"
    | some i => do
      let r ← buildLitellmList rest
      Except.ok (("github/" ++ i) :: r)

/-- `GitHubModelsProvider.get_litellm_model_list`. -/
def get_litellm_model_list (st : ProviderState) (now : Int) (fetch : FetchOutcome) :
    Except String (List String × ProviderState) := do
  let r ← get_available_models st now fetch false
  let l ← buildLitellmList r.result
  Except.ok (l, r.state)

/-- `GitHubModelsProvider.is_github_model`: pure string predicate. -/
def is_github_model (model : String) : Bool :=
  "github/".data.isPrefixOf model.data

/-- `get_github_models_for_litellm` (lines 252-266): wraps the provider call
in a catch-all `except Exception`, degrading every failure to `[]`. -/
def get_github_models_for_litellm (st : ProviderState) (now : Int)
    (fetch : FetchOutcome) : List String :=
  match get_litellm_model_list st now fetch with
  | Except.ok r => r.1
  | Except.error _ => []

/-- The dict `_failed_models : dict[str, float]`, embedded as an association
list in insertion order (Python dicts preserve insertion order and the
reachable states have unique keys). -/
abbrev FailedMap := List (String × Int)

/-- `model in self._failed_models` / `self._failed_models[model]`: first
binding of the key. -/
def lookupFailed : FailedMap → String → Option Int
  | [], _ => none
  | (k, v) :: rest, m => if k == m then some v else lookupFailed rest m

/-- `self._failed_models[model] = t`: overwrite the existing binding in place,
else append (Python dict assignment keeps the key position). -/
def setFailed : FailedMap → String → Int → FailedMap
  | [], m, t => [(m, t)]
  | (k, v) :: rest, m, t =>
    if k == m then (k, t) :: rest else (k, v) :: setFailed rest m t

/-- `del self._failed_models[model]`: remove the key's binding. -/
def eraseFailed : FailedMap → String → FailedMap
  | [], _ => []
  | (k, v) :: rest, m =>
    if k == m then eraseFailed rest m else (k, v) :: eraseFailed rest m

/-- `self._failure_timeout = 300`. -/
def failure_timeout : Int := 300

/-- `GitHubModelsRateLimitHandler.is_model_available`: true when the model has
no cooldown entry; when an entry exists and `now - entry > timeout`, evict it
and return true; otherwise return false.  Returns the answer together with the
updated `_failed_models`. -/
def is_model_available (fm : FailedMap) (now : Int) (model : String) :
    Bool × FailedMap :=
  match lookupFailed fm model with
  | none => (true, fm)
  | some ts =>
    if now - ts > failure_timeout then (true, eraseFailed fm model)
    else (false, fm)

/-- `GitHubModelsRateLimitHandler.mark_model_failed`: record/overwrite the
current timestamp for the model. -/
def mark_model_failed (fm : FailedMap) (now : Int) (model : String) : FailedMap :=
  setFailed fm model now

/-- The candidate walk of `get_next_available_model` (lines 207-213): return
the first candidate reported available, threading the tracker state through
the successive `is_model_available` calls. -/
def walkCandidates (fm : FailedMap) (now : Int) :
    List String → Option String × FailedMap
  | [] => (none, fm)
  | c :: rest =>
    let r := is_model_available fm now c
    if r.1 then (some c, r.2) else walkCandidates r.2 now rest

/-- `GitHubModelsRateLimitHandler.get_next_available_model`: fetch the
fallback candidates from the provider, then walk them with
`is_model_available`. -/
def get_next_available_model (st : ProviderState) (fm : FailedMap) (now : Int)
    (fetch : FetchOutcome) (current_model : String) :
    Except String (Option String × FailedMap × ProviderState) := do
  let r ← get_fallback_models st now fetch current_model
  let w := walkCandidates fm now r.1
  Except.ok (w.1, w.2, r.2)

/-- The catalog of the spec's fallback-correctness example. -/
def exampleCatalog : List ModelDescriptor :=
  [⟨some "openai/gpt-4.1", some "high"⟩,
   ⟨some "meta/llama-3.3-70b-instruct", some "high"⟩,
   ⟨some "mistral-ai/mistral-large-2411", some "high"⟩,
   ⟨some "openai/gpt-4o-mini", some "low"⟩]

/-- A catalog whose first model is present but lacks the `rate_limit_tier`
field, together with a `low`-tier model. -/
def catalogNoTier : List ModelDescriptor :=
  [⟨some "a", none⟩, ⟨some "b", some "low"⟩]

/-! ## Supporting lemmas -/

/-- Reduction of the `Except` monad's bind on a success value. -/
theorem except_bind_ok {ε α β : Type} (a : α) (f : α → Except ε β) :
    (Except.ok a >>= f : Except ε β) = f a := rfl

/-- When the cache holds a snapshot fresher than the TTL,
`get_available_models` returns it without fetching. -/
theorem get_available_models_fresh (catalog : List ModelDescriptor) (ts now : Int)
    (fetch : FetchOutcome) (hfresh : now - ts < cache_ttl) :
    get_available_models ⟨some catalog, some ts⟩ now fetch false =
      Except.ok ⟨catalog, ⟨some catalog, some ts⟩, false⟩ := by
  simp [get_available_models, cacheFresh, hfresh]

/-- With a fresh cache, `get_models_by_tier` is the tier filter of the cached
catalog. -/
theorem get_models_by_tier_fresh (catalog : List ModelDescriptor) (ts now : Int)
    (fetch : FetchOutcome) (tier : String) (hfresh : now - ts < cache_ttl) :
    get_models_by_tier ⟨some catalog, some ts⟩ now fetch tier =
      Except.ok ⟨catalog.filter (fun m => m.rate_limit_tier == some tier),
                 ⟨some catalog, some ts⟩, false⟩ := by
  unfold get_models_by_tier
  rw [get_available_models_fresh catalog ts now fetch hfresh, except_bind_ok]

/-- When every descriptor carries an `id`, the search loop of
`get_fallback_models` computes `List.find?` on the id predicate. -/
theorem findCurrentModel_eq_find (models : List ModelDescriptor) (gid : String)
    (hids : ∀ m ∈ models, m.id.isSome) :
    findCurrentModel models gid =
      Except.ok (models.find? (fun m => m.id == some gid)) := by
  induction models with
  | nil => simp [findCurrentModel]
  | cons m rest ih =>
    have hm : m.id.isSome := hids m (List.mem_cons_self m rest)
    obtain ⟨i, hi⟩ := Option.isSome_iff_exists.mp hm
    have hrest : ∀ x ∈ rest, x.id.isSome := fun x hx => hids x (List.mem_cons_of_mem m hx)
    by_cases hg : i = gid
    · have hg' : (i == gid) = true := by simp [hg]
      simp [findCurrentModel, hi, hg', List.find?]
    · have hg' : (i == gid) = false := by simp [hg]
      simp [findCurrentModel, hi, hg', List.find?, ih hrest]

/-- When every descriptor carries an `id`, the accumulation loop of
`get_fallback_models` is a filter-out of the current id followed by
re-prefixing. -/
theorem buildFallbacks_eq (l : List ModelDescriptor) (gid : String)
    (hids : ∀ m ∈ l, m.id.isSome) :
    buildFallbacks l gid =
      Except.ok ((l.filter (fun m => m.id != some gid)).map
        (fun m => "github/" ++ m.id.getD "")) := by
  induction l with
  | nil => simp [buildFallbacks]
  | cons m rest ih =>
    have hm : m.id.isSome := hids m (List.mem_cons_self m rest)
    obtain ⟨i, hi⟩ := Option.isSome_iff_exists.mp hm
    have hrest : ∀ x ∈ rest, x.id.isSome := fun x hx => hids x (List.mem_cons_of_mem m hx)
    by_cases hg : i = gid
    · have hg' : (i == gid) = true := by simp [hg]
      have hval : (m.id != some gid) = false := by simp [hi, hg]
      simp [buildFallbacks, hi, hg, hg', ih hrest, except_bind_ok, List.filter_cons, hval]
    · have hg' : (i == gid) = false := by simp [hg]
      have hval : (m.id != some gid) = true := by simp [hi, hg]
      simp [buildFallbacks, hi, hg, hg', ih hrest, except_bind_ok, List.filter_cons, hval]

/-- Closed form of `get_fallback_models` on a fresh cache whose descriptors
all carry ids and whose catalog contains the current model: filter the
catalog by the tier read from the current model's descriptor (`'low'` when the
field is absent), drop the current id, and re-prefix. -/
theorem get_fallback_models_fresh (catalog : List ModelDescriptor) (ts now : Int)
    (fetch : FetchOutcome) (cur : String) (info : ModelDescriptor)
    (hfresh : now - ts < cache_ttl)
    (hids : ∀ m ∈ catalog, m.id.isSome)
    (hfind : catalog.find? (fun m => m.id == some (stripNamespace cur)) = some info) :
    get_fallback_models ⟨some catalog, some ts⟩ now fetch cur =
      Except.ok
        (((catalog.filter (fun m =>
              m.rate_limit_tier == some (info.rate_limit_tier.getD "low"))).filter
            (fun m => m.id != some (stripNamespace cur))).map
          (fun m => "github/" ++ m.id.getD ""),
         ⟨some catalog, some ts⟩) := by
  have h1 := get_available_models_fresh catalog ts now fetch hfresh
  have h2 := findCurrentModel_eq_find catalog (stripNamespace cur) hids
  have h3 := get_models_by_tier_fresh catalog ts now fetch
    (info.rate_limit_tier.getD "low") hfresh
  have h4 := buildFallbacks_eq
    (catalog.filter (fun m =>
      m.rate_limit_tier == some (info.rate_limit_tier.getD "low")))
    (stripNamespace cur)
    (fun m hm => hids m (List.mem_of_mem_filter hm))
  simp [get_fallback_models, h1, h2, hfind, h3, h4, except_bind_ok]

/-- Dict assignment: looking up the assigned key yields the new value. -/
theorem lookup_set_self (fm : FailedMap) (m : String) (t : Int) :
    lookupFailed (setFailed fm m t) m = some t := by
  induction fm with
  | nil => simp [setFailed, lookupFailed]
  | cons kv rest ih =>
    obtain ⟨k, v⟩ := kv
    by_cases h : k = m
    · simp [setFailed, lookupFailed, h]
    · simp [setFailed, lookupFailed, h, ih]

/-- Dict deletion: the deleted key is absent afterwards. -/
theorem lookup_erase_self (fm : FailedMap) (m : String) :
    lookupFailed (eraseFailed fm m) m = none := by
  induction fm with
  | nil => simp [eraseFailed, lookupFailed]
  | cons kv rest ih =>
    obtain ⟨k, v⟩ := kv
    by_cases h : k = m
    · simp [eraseFailed, lookupFailed, h, ih]
    · simp [eraseFailed, lookupFailed, h, ih]

/-- Dict deletion: every other key keeps its binding. -/
theorem lookup_erase_ne (fm : FailedMap) (m k : String) (h : k ≠ m) :
    lookupFailed (eraseFailed fm m) k = lookupFailed fm k := by
  induction fm with
  | nil => simp [eraseFailed, lookupFailed]
  | cons kv rest ih =>
    obtain ⟨k₀, v⟩ := kv
    by_cases h₀ : k₀ = m
    · have hk : k₀ ≠ k := fun hkk => h (hkk ▸ h₀)
      have hk' : (k₀ == k) = false := by simp [hk]
      simp [eraseFailed, lookupFailed, h₀, hk', Ne.symm h, ih]
    · by_cases hk : k₀ = k
      · simp [eraseFailed, lookupFailed, h₀, hk, h]
      · have hk' : (k₀ == k) = false := by simp [hk]
        simp [eraseFailed, lookupFailed, h₀, hk', ih]

/-- `is_model_available` leaves the cooldown map untouched whenever it answers
false (eviction happens only on the expired-entry path). -/
theorem avail_state_of_false (fm : FailedMap) (now : Int) (model : String)
    (h : (is_model_available fm now model).1 = false) :
    (is_model_available fm now model).2 = fm := by
  unfold is_model_available at h ⊢
  cases hl : lookupFailed fm model with
  | none => simp [hl] at h
  | some ts =>
    by_cases hgt : now - ts > failure_timeout
    · simp [hl, hgt] at h
    · simp [hl, hgt]

/-- The candidate walk of `get_next_available_model` selects the first
candidate available under the tracker state it started from. -/
theorem walkCandidates_fst (fm : FailedMap) (now : Int) (cands : List String) :
    (walkCandidates fm now cands).1 =
      cands.find? (fun c => (is_model_available fm now c).1) := by
  induction cands with
  | nil => simp [walkCandidates]
  | cons c rest ih =>
    cases hc : (is_model_available fm now c).1 with
    | true => simp [walkCandidates, hc, List.find?]
    | false =>
      have hst := avail_state_of_false fm now c hc
      simp [walkCandidates, hc, hst, List.find?, ih]

/-! ## Claim theorems -/

/-- C1: for every catalog (all descriptors carrying ids) in which the current
model's id is present, `get_fallback_models` on the namespaced current model
id returns exactly the ids of the other catalog models whose
`rate_limit_tier` equals the current model's tier, each prefixed with
`github/`, in catalog order, excluding the current model itself. -/
theorem get_fallback_models_same_tier
    (catalog : List ModelDescriptor) (ts now : Int) (fetch : FetchOutcome)
    (cur : String) (info : ModelDescriptor) (curTier : String)
    (hfresh : now - ts < cache_ttl)
    (hids : ∀ m ∈ catalog, m.id.isSome)
    (hfind : catalog.find? (fun m => m.id == some (stripNamespace cur)) = some info)
    (htier : info.rate_limit_tier = some curTier) :
    get_fallback_models ⟨some catalog, some ts⟩ now fetch cur =
      Except.ok
        (((catalog.filter (fun m => m.rate_limit_tier == some curTier)).filter
            (fun m => m.id != some (stripNamespace cur))).map
          (fun m => "github/" ++ m.id.getD ""),
         ⟨some catalog, some ts⟩) := by
  have h := get_fallback_models_fresh catalog ts now fetch cur info hfresh hids hfind
  rw [htier] at h
  simpa using h

/-- Witness for C1 at the spec's fallback-correctness example:
`get_fallback_models("github/openai/gpt-4.1")` yields exactly the two other
high-tier models, in catalog order. -/
theorem get_fallback_models_same_tier_witness :
    ((0 : Int) - 0 < cache_ttl) ∧
    (∀ m ∈ exampleCatalog, m.id.isSome) ∧
    exampleCatalog.find?
        (fun m => m.id == some (stripNamespace "github/openai/gpt-4.1")) =
      some ⟨some "openai/gpt-4.1", some "high"⟩ ∧
    get_fallback_models ⟨some exampleCatalog, some 0⟩ 0 FetchOutcome.transportError
        "github/openai/gpt-4.1" =
      Except.ok (["github/meta/llama-3.3-70b-instruct",
                  "github/mistral-ai/mistral-large-2411"],
                 ⟨some exampleCatalog, some 0⟩) :=
  ⟨by decide, by decide, by decide,
   (get_fallback_models_same_tier exampleCatalog 0 0 FetchOutcome.transportError
      "github/openai/gpt-4.1" ⟨some "openai/gpt-4.1", some "high"⟩ "high"
      (by decide) (by decide) (by decide) rfl).trans (by rfl)⟩

/-- C2: `get_next_available_model` returns the first fallback candidate, in
catalog order, for which `is_model_available` holds under the tracker state
the walk started from, and none when no candidate qualifies. -/
theorem get_next_available_model_first
    (st st' : ProviderState) (fm : FailedMap) (now : Int) (fetch : FetchOutcome)
    (cur : String) (cands : List String)
    (h : get_fallback_models st now fetch cur = Except.ok (cands, st')) :
    get_next_available_model st fm now fetch cur =
      Except.ok (cands.find? (fun c => (is_model_available fm now c).1),
                 (walkCandidates fm now cands).2, st') := by
  simp [get_next_available_model, h, except_bind_ok, walkCandidates_fst fm now cands]

/-- Witness for C2 at the spec's example: with
`github/meta/llama-3.3-70b-instruct` marked failed, the walk for
`github/openai/gpt-4.1` skips it and returns
`github/mistral-ai/mistral-large-2411`. -/
theorem get_next_available_model_first_witness :
    get_fallback_models ⟨some exampleCatalog, some 0⟩ 100 FetchOutcome.transportError
        "github/openai/gpt-4.1" =
      Except.ok (["github/meta/llama-3.3-70b-instruct",
                  "github/mistral-ai/mistral-large-2411"],
                 ⟨some exampleCatalog, some 0⟩) ∧
    get_next_available_model ⟨some exampleCatalog, some 0⟩
        (mark_model_failed [] 0 "github/meta/llama-3.3-70b-instruct") 100
        FetchOutcome.transportError "github/openai/gpt-4.1" =
      Except.ok (some "github/mistral-ai/mistral-large-2411",
                 [("github/meta/llama-3.3-70b-instruct", 0)],
                 ⟨some exampleCatalog, some 0⟩) :=
  ⟨by rfl,
   (get_next_available_model_first ⟨some exampleCatalog, some 0⟩
      ⟨some exampleCatalog, some 0⟩
      (mark_model_failed [] 0 "github/meta/llama-3.3-70b-instruct") 100
      FetchOutcome.transportError "github/openai/gpt-4.1"
      ["github/meta/llama-3.3-70b-instruct",
       "github/mistral-ai/mistral-large-2411"] (by rfl)).trans (by rfl)⟩

/-- C5: whenever a network fetch is actually attempted (stale or absent cache,
or a forced refresh) and fails with a transport error, `get_available_models`
returns the previous snapshot if one exists and the empty list otherwise, and
leaves the cached snapshot and its timestamp unmodified. -/
theorem get_available_models_transport_failure
    (st : ProviderState) (now : Int) (force : Bool)
    (h : force = true ∨ cacheFresh st now = false) :
    get_available_models st now FetchOutcome.transportError force =
      Except.ok ⟨st.models_cache.getD [], st, true⟩ := by
  unfold get_available_models
  rcases h with h | h <;> simp [h]

/-- Witness for C5: a failing fetch on an empty cache returns the empty list
and leaves the state untouched. -/
theorem get_available_models_transport_failure_witness :
    (false = true ∨ cacheFresh ⟨none, none⟩ 0 = false) ∧
    get_available_models ⟨none, none⟩ 0 FetchOutcome.transportError false =
      Except.ok ⟨[], ⟨none, none⟩, true⟩ :=
  ⟨Or.inr (by decide),
   get_available_models_transport_failure ⟨none, none⟩ 0 false (Or.inr (by decide))⟩

/-- C7: marking any model failed at time 0 makes `is_model_available` answer
false at time 100 (leaving the tracker unchanged) and true at time 301, after
which the model's entry is absent from the cooldown map. -/
theorem cooldown_expiry_timeline (fm : FailedMap) (m : String) :
    (is_model_available (mark_model_failed fm 0 m) 100 m).1 = false ∧
    (is_model_available (mark_model_failed fm 0 m) 100 m).2 = mark_model_failed fm 0 m ∧
    (is_model_available (mark_model_failed fm 0 m) 301 m).1 = true ∧
    lookupFailed (is_model_available (mark_model_failed fm 0 m) 301 m).2 m = none := by
  have hl : lookupFailed (mark_model_failed fm 0 m) m = some 0 :=
    lookup_set_self fm m 0
  refine ⟨?_, ?_, ?_, ?_⟩
  · norm_num [is_model_available, hl, failure_timeout]
  · norm_num [is_model_available, hl, failure_timeout]
  · norm_num [is_model_available, hl, failure_timeout]
  · norm_num [is_model_available, hl, failure_timeout, lookup_erase_self]

/-- C3 counterexample: in `catalogNoTier` the current model `a` is present but
carries no `rate_limit_tier`, yet `get_fallback_models("github/a")` returns
exactly the `low`-tier models (here `github/b`): the `'low'` default of line
121 is used for filtering, not only for logging, refuting the claim. -/
theorem get_fallback_models_low_default_cex :
    catalogNoTier.find? (fun m => m.id == some (stripNamespace "github/a")) =
      some ⟨some "a", none⟩ ∧
    get_models_by_tier ⟨some catalogNoTier, some 0⟩ 0 FetchOutcome.transportError
        "low" =
      Except.ok ⟨[⟨some "b", some "low"⟩], ⟨some catalogNoTier, some 0⟩, false⟩ ∧
    get_fallback_models ⟨some catalogNoTier, some 0⟩ 0 FetchOutcome.transportError
        "github/a" =
      Except.ok (["github/b"], ⟨some catalogNoTier, some 0⟩) :=
  ⟨by decide, by rfl, by rfl⟩

/-- C3 amended: when the current model's descriptor lacks `rate_limit_tier`,
`get_fallback_models` defaults the tier designation to `"low"` and uses it to
filter the candidates, returning the other catalog models whose tier equals
`"low"`, prefixed and in catalog order. -/
theorem get_fallback_models_missing_tier_low
    (catalog : List ModelDescriptor) (ts now : Int) (fetch : FetchOutcome)
    (cur : String) (info : ModelDescriptor)
    (hfresh : now - ts < cache_ttl)
    (hids : ∀ m ∈ catalog, m.id.isSome)
    (hfind : catalog.find? (fun m => m.id == some (stripNamespace cur)) = some info)
    (hnone : info.rate_limit_tier = none) :
    get_fallback_models ⟨some catalog, some ts⟩ now fetch cur =
      Except.ok
        (((catalog.filter (fun m => m.rate_limit_tier == some "low")).filter
            (fun m => m.id != some (stripNamespace cur))).map
          (fun m => "github/" ++ m.id.getD ""),
         ⟨some catalog, some ts⟩) := by
  have h := get_fallback_models_fresh catalog ts now fetch cur info hfresh hids hfind
  rw [hnone] at h
  simpa using h

/-- Witness for the amended C3 at `catalogNoTier`. -/
theorem get_fallback_models_missing_tier_low_witness :
    catalogNoTier.find? (fun m => m.id == some (stripNamespace "github/a")) =
      some ⟨some "a", none⟩ ∧
    get_fallback_models ⟨some catalogNoTier, some 0⟩ 0 FetchOutcome.transportError
        "github/a" = Except.ok (["github/b"], ⟨some catalogNoTier, some 0⟩) :=
  ⟨by decide,
   (get_fallback_models_missing_tier_low catalogNoTier 0 0 FetchOutcome.transportError
      "github/a" ⟨some "a", none⟩ (by decide) (by decide) (by decide) rfl).trans
     (by rfl)⟩

/-- C4 counterexample: a fetched descriptor lacking the `id` field makes
`get_fallback_models` raise `KeyError` past its boundary, and a 2xx response
whose body fails JSON parsing makes `get_available_models` raise
`JSONDecodeError` (only `httpx.HTTPError` is caught), refuting the claim that
no public operation ever raises for any remote response. -/
theorem never_raises_cex :
    get_fallback_models ⟨none, none⟩ 0 (FetchOutcome.ok [⟨none, some "high"⟩])
        "github/x" = Except.error "KeyError" ∧
    get_available_models ⟨none, none⟩ 0 FetchOutcome.badBody false =
      Except.error "JSONDecodeError" :=
  ⟨by rfl, by rfl⟩

/-- C4 amended: transport failures never raise past `get_available_models`
(its only uncaught failure is a malformed 2xx body), and
`get_github_models_for_litellm` absorbs every failure of the underlying call
into an empty list; catalog-parsing operations, however, can raise on
descriptors missing `id` or on malformed bodies. -/
theorem error_containment :
    (∀ (st : ProviderState) (now : Int) (force : Bool) (e : String),
        get_available_models st now FetchOutcome.transportError force ≠
          Except.error e) ∧
    (∀ (st : ProviderState) (now : Int) (fetch : FetchOutcome) (force : Bool)
        (e : String),
        get_available_models st now fetch force = Except.error e →
          fetch = FetchOutcome.badBody) ∧
    (∀ (st : ProviderState) (now : Int) (fetch : FetchOutcome) (e : String),
        get_litellm_model_list st now fetch = Except.error e →
          get_github_models_for_litellm st now fetch = []) := by
  refine ⟨?_, ?_, ?_⟩
  · intro st now force e h
    unfold get_available_models at h
    split at h <;> simp at h
  · intro st now fetch force e h
    unfold get_available_models at h
    split at h
    · simp at h
    · cases fetch with
      | transportError => simp at h
      | badBody => rfl
      | ok models => simp at h
  · intro st now fetch e h
    unfold get_github_models_for_litellm
    rw [h]

/-- Witness for the amended C4. -/
theorem error_containment_witness :
    get_available_models ⟨none, none⟩ 0 FetchOutcome.transportError false ≠
      Except.error "e" ∧
    FetchOutcome.badBody = FetchOutcome.badBody ∧
    get_github_models_for_litellm ⟨none, none⟩ 0
      (FetchOutcome.ok [⟨none, none⟩]) = [] :=
  ⟨error_containment.1 ⟨none, none⟩ 0 false "e",
   error_containment.2.1 ⟨none, none⟩ 0 FetchOutcome.badBody false "JSONDecodeError"
     (by rfl),
   error_containment.2.2 ⟨none, none⟩ 0 (FetchOutcome.ok [⟨none, none⟩]) "KeyError"
     (by rfl)⟩

/-- C6 counterexample: with a warm cache (snapshot stored at time 0), two
`get_available_models()` calls at times 0 and 1 both answer from the cache:
zero fetches are performed across the pair, not exactly one. -/
theorem idempotence_cex :
    get_available_models ⟨some exampleCatalog, some 0⟩ 0 FetchOutcome.transportError
        false =
      Except.ok ⟨exampleCatalog, ⟨some exampleCatalog, some 0⟩, false⟩ ∧
    get_available_models ⟨some exampleCatalog, some 0⟩ 1 FetchOutcome.transportError
        false =
      Except.ok ⟨exampleCatalog, ⟨some exampleCatalog, some 0⟩, false⟩ ∧
    Bool.toNat false + Bool.toNat false ≠ 1 :=
  ⟨by rfl, by rfl, by decide⟩

/-- C6 amended: starting without a cached snapshot, a pair of
`get_available_models()` calls within one TTL window whose first fetch
succeeds performs exactly one network fetch (the first call fetches, the
second answers from the cache) and the second call returns a snapshot
identical to the first call's result. -/
theorem get_available_models_idempotent_cold
    (catalog : List ModelDescriptor) (t1 t2 : Int) (f2 : FetchOutcome)
    (h : t2 - t1 < cache_ttl) :
    get_available_models ⟨none, none⟩ t1 (FetchOutcome.ok catalog) false =
      Except.ok ⟨catalog, ⟨some catalog, some t1⟩, true⟩ ∧
    get_available_models ⟨some catalog, some t1⟩ t2 f2 false =
      Except.ok ⟨catalog, ⟨some catalog, some t1⟩, false⟩ := by
  constructor
  · simp [get_available_models, cacheFresh]
  · exact get_available_models_fresh catalog t1 t2 f2 h

/-- Witness for the amended C6. -/
theorem get_available_models_idempotent_cold_witness :
    ((50 : Int) - 0 < cache_ttl) ∧
    get_available_models ⟨none, none⟩ 0 (FetchOutcome.ok exampleCatalog) false =
      Except.ok ⟨exampleCatalog, ⟨some exampleCatalog, some 0⟩, true⟩ ∧
    get_available_models ⟨some exampleCatalog, some 0⟩ 50 FetchOutcome.transportError
        false =
      Except.ok ⟨exampleCatalog, ⟨some exampleCatalog, some 0⟩, false⟩ :=
  ⟨by decide,
   (get_available_models_idempotent_cold exampleCatalog 0 50
      FetchOutcome.transportError (by decide)).1,
   (get_available_models_idempotent_cold exampleCatalog 0 50
      FetchOutcome.transportError (by decide)).2⟩

/-- C8: after any `is_model_available` read, the queried id is still bound in
the cooldown map only if its age is within the cooldown window — a read that
discovers an expired entry evicts it before answering. -/
theorem cooldown_read_evicts_expired
    (fm : FailedMap) (now : Int) (model : String) (ts : Int)
    (h : lookupFailed (is_model_available fm now model).2 model = some ts) :
    now - ts ≤ failure_timeout := by
  cases hl : lookupFailed fm model with
  | none => simp [is_model_available, hl] at h
  | some t0 =>
    by_cases hgt : now - t0 > failure_timeout
    · simp [is_model_available, hl, hgt, lookup_erase_self] at h
    · simp [is_model_available, hl, hgt] at h
      subst h
      unfold failure_timeout at hgt ⊢
      omega

/-- Witness for C8: a fresh entry survives the read and its age is within the
window. -/
theorem cooldown_read_evicts_expired_witness :
    lookupFailed (is_model_available [("m", 0)] 100 "m").2 "m" = some 0 ∧
    (100 : Int) - 0 ≤ failure_timeout :=
  ⟨by decide, cooldown_read_evicts_expired [("m", 0)] 100 "m" 0 (by decide)⟩

/-- C9: on a fresh catalog whose descriptors all carry a tier,
`get_models_by_tier t` is exactly the catalog-order subset with
`rate_limit_tier = t`, every catalog model belongs to the result of some
tier, and the results of two distinct tiers are disjoint. -/
theorem get_models_by_tier_partition
    (catalog : List ModelDescriptor) (ts now : Int) (fetch : FetchOutcome)
    (hfresh : now - ts < cache_ttl)
    (htier : ∀ m ∈ catalog, m.rate_limit_tier.isSome) :
    (∀ t, get_models_by_tier ⟨some catalog, some ts⟩ now fetch t =
        Except.ok ⟨catalog.filter (fun m => m.rate_limit_tier == some t),
                   ⟨some catalog, some ts⟩, false⟩) ∧
    (∀ m ∈ catalog, ∃ t r,
        get_models_by_tier ⟨some catalog, some ts⟩ now fetch t = Except.ok r ∧
        m ∈ r.result) ∧
    (∀ t₁ t₂ r₁ r₂, t₁ ≠ t₂ →
        get_models_by_tier ⟨some catalog, some ts⟩ now fetch t₁ = Except.ok r₁ →
        get_models_by_tier ⟨some catalog, some ts⟩ now fetch t₂ = Except.ok r₂ →
        ∀ m, m ∈ r₁.result → m ∉ r₂.result) := by
  have hclosed := fun t => get_models_by_tier_fresh catalog ts now fetch t hfresh
  refine ⟨hclosed, ?_, ?_⟩
  · intro m hm
    obtain ⟨t, ht⟩ := Option.isSome_iff_exists.mp (htier m hm)
    refine ⟨t, _, hclosed t, ?_⟩
    simp [List.mem_filter, hm, ht]
  · intro t₁ t₂ r₁ r₂ hne h₁ h₂ m hm₁ hm₂
    rw [hclosed t₁] at h₁
    rw [hclosed t₂] at h₂
    injection h₁ with e₁
    injection h₂ with e₂
    subst e₁
    subst e₂
    simp [List.mem_filter] at hm₁ hm₂
    exact hne (Option.some.inj (hm₁.2.symm.trans hm₂.2))

/-- Witness for C9: the `high` tier of the example catalog. -/
theorem get_models_by_tier_partition_witness :
    ((0 : Int) - 0 < cache_ttl) ∧
    (∀ m ∈ exampleCatalog, m.rate_limit_tier.isSome) ∧
    get_models_by_tier ⟨some exampleCatalog, some 0⟩ 0 FetchOutcome.transportError
        "high" =
      Except.ok ⟨[⟨some "openai/gpt-4.1", some "high"⟩,
                  ⟨some "meta/llama-3.3-70b-instruct", some "high"⟩,
                  ⟨some "mistral-ai/mistral-large-2411", some "high"⟩],
                 ⟨some exampleCatalog, some 0⟩, false⟩ :=
  ⟨by decide, by decide,
   ((get_models_by_tier_partition exampleCatalog 0 0 FetchOutcome.transportError
      (by decide) (by decide)).1 "high").trans (by rfl)⟩

/-- C10: `is_model_available` mutates at most the queried id's binding: every
other key keeps its binding, the map is either unchanged or the queried key's
eviction, and the queried key's binding is either unchanged or removed. -/
theorem is_model_available_frame (fm : FailedMap) (now : Int) (model : String) :
    (∀ k, k ≠ model →
        lookupFailed (is_model_available fm now model).2 k = lookupFailed fm k) ∧
    ((is_model_available fm now model).2 = fm ∨
      (is_model_available fm now model).2 = eraseFailed fm model) ∧
    (lookupFailed (is_model_available fm now model).2 model =
        lookupFailed fm model ∨
      lookupFailed (is_model_available fm now model).2 model = none) := by
  cases hl : lookupFailed fm model with
  | none => refine ⟨?_, Or.inl ?_, Or.inl ?_⟩ <;> simp [is_model_available, hl]
  | some t0 =>
    by_cases hgt : now - t0 > failure_timeout
    · refine ⟨?_, Or.inr ?_, Or.inr ?_⟩
      · intro k hk
        simp [is_model_available, hl, hgt, lookup_erase_ne fm model k hk]
      · simp [is_model_available, hl, hgt]
      · simp [is_model_available, hl, hgt, lookup_erase_self]
    · refine ⟨?_, Or.inl ?_, Or.inl ?_⟩ <;> simp [is_model_available, hl, hgt]

/-- Witness for C10: querying `b` leaves the binding of `a` unchanged. -/
theorem is_model_available_frame_witness :
    lookupFailed (is_model_available [("a", 0)] 0 "b").2 "a" =
      lookupFailed [("a", 0)] "a" :=
  (is_model_available_frame [("a", 0)] 0 "b").1 "a" (by decide)

end GitHubModels
